import Mathlib

/-!
Shallow embedding of the managed-cluster reconciliation service in
src/azure/services/managedclusters/managedclusters.go.

The provider client (azure SDK) is modelled as a record of the responses a
single invocation observes; each entry point returns the ordered list of
provider calls it issued together with its outcome.  A missing outcome
(`none`) encodes a nil-pointer dereference, which in Go is a panic.
-/

set_option autoImplicit false

namespace ManagedClusters

/-- PoolSpec (managedclusters.go lines 89-94): agent pool specification.
The int32 fields are modelled as Int; their machine width is immaterial to
every property proved here. -/
structure PoolSpec where
  name : String
  sku : String
  replicas : Int
  osDiskSizeGB : Int
deriving DecidableEq

/-- Spec (managedclusters.go lines 41-86): desired state of a managed
cluster.  Tags (a Go map) is modelled as an association list; DNSServiceIP
(a *string) as Option String. -/
structure Spec where
  name : String
  resourceGroupName : String
  nodeResourceGroupName : String
  vnetSubnetID : String
  location : String
  tags : List (String × String)
  version : String
  loadBalancerSKU : String
  networkPlugin : String
  networkPolicy : String
  sshPublicKey : String
  agentPools : List PoolSpec
  podCIDR : String
  serviceCIDR : String
  dnsServiceIP : Option String
deriving DecidableEq

/-! ### net.ParseCIDR, IPv4 fragment

The code calls net.ParseCIDR (line 165).  We model its IPv4 fragment: the
address part is a dotted quad, the mask part a decimal prefix length in
0..32.  ParseCIDR returns the address exactly as written (Go documents
that ParseCIDR of 192.0.2.1/24 returns the address 192.0.2.1, not the
masked network base).  IPv6 addresses are outside the modelled fragment
and are treated as a parse failure; no claim concerns them. -/

/-- IPv4 address as four octets. -/
structure IPv4 where
  a : Nat
  b : Nat
  c : Nat
  d : Nat
deriving DecidableEq

/-- Decimal digit test on a character, as in Go's dtoi. -/
def isDigitChar (ch : Char) : Bool :=
  48 ≤ ch.toNat && ch.toNat ≤ 57

/-- Value of a list of decimal digits (most significant first). -/
def digitsToNat (l : List Char) : Nat :=
  l.foldl (fun acc ch => acc * 10 + (ch.toNat - 48)) 0

/-- Split a character list at every occurrence of the separator. -/
def splitOnChar (sep : Char) : List Char → List (List Char)
  | [] => [[]]
  | ch :: rest =>
    let r := splitOnChar sep rest
    if ch = sep then [] :: r
    else
      match r with
      | [] => [[ch]]
      | g :: gs => (ch :: g) :: gs

/-- One dotted-quad field: a non-empty run of digits whose value is at
most 255 (Go's dtoi followed by the 0xFF bound in parseIPv4). -/
def parseOctet (l : List Char) : Option Nat :=
  if l = [] then none
  else if ¬ l.all isDigitChar then none
  else if digitsToNat l ≤ 255 then some (digitsToNat l) else none

/-- The address part of a CIDR string: four octet fields separated by
dots (Go's parseIPv4). -/
def parseIPv4 (l : List Char) : Option IPv4 :=
  match (splitOnChar '.' l).map parseOctet with
  | [some a, some b, some c, some d] => some ⟨a, b, c, d⟩
  | _ => none

/-- The mask part of a CIDR string: a non-empty run of digits whose value
is at most 32 (Go's dtoi followed by the range check in ParseCIDR). -/
def parseMaskLen (l : List Char) : Option Nat :=
  if l = [] then none
  else if ¬ l.all isDigitChar then none
  else if digitsToNat l ≤ 32 then some (digitsToNat l) else none

/-- net.ParseCIDR on the IPv4 fragment: address part slash mask part.
Returns the address as written together with the mask length. -/
def parseCIDR (s : String) : Option (IPv4 × Nat) :=
  match splitOnChar '/' s.toList with
  | [addr, mask] =>
    match parseIPv4 addr, parseMaskLen mask with
    | some ip, some n => some (ip, n)
    | _, _ => none
  | _ => none

/-- Render an IPv4 address as a dotted quad, as Go's ip.String does for a
16-byte IPv4-mapped address. -/
def ipv4String (ip : IPv4) : String :=
  toString ip.a ++ "." ++ toString ip.b ++ "." ++ toString ip.c ++ "." ++ toString ip.d

/-! ### The built ManagedCluster resource (lines 126-193) -/

/-- SSHPublicKey entry of the SDK's SSH configuration. -/
structure SSHPublicKey where
  keyData : String
deriving DecidableEq

/-- LinuxProfile of the built resource (lines 136-145). -/
structure LinuxProfile where
  adminUsername : String
  sshPublicKeys : List SSHPublicKey
deriving DecidableEq

/-- One agent pool profile of the built resource (lines 183-191). -/
structure AgentPoolProfile where
  name : String
  vmSize : String
  osDiskSizeGB : Int
  count : Int
  poolType : String
  vnetSubnetID : String
  mode : String
deriving DecidableEq

/-- NetworkProfile of the built resource (lines 150-179).  The SDK's
*string fields PodCidr, ServiceCidr and DNSServiceIP are Option String;
none models a nil pointer (field left unset). -/
structure NetworkProfile where
  networkPlugin : String
  loadBalancerSku : String
  networkPolicy : String
  podCidr : Option String
  serviceCidr : Option String
  dnsServiceIP : Option String
deriving DecidableEq

/-- ManagedClusterProperties of the built resource (lines 132-155).
The Go field DNSPrefix is rendered as dnsPrefixVal. -/
structure ManagedClusterProperties where
  nodeResourceGroup : String
  dnsPrefixVal : String
  kubernetesVersion : String
  linuxProfile : LinuxProfile
  servicePrincipalClientID : String
  agentPoolProfiles : List AgentPoolProfile
  networkProfile : NetworkProfile
deriving DecidableEq

/-- The desired containerservice.ManagedCluster built by Reconcile
(lines 126-193). -/
structure ManagedCluster where
  identityType : String
  location : String
  tags : List (String × String)
  properties : ManagedClusterProperties
deriving DecidableEq

/-- defaultUser (line 36). -/
def defaultUser : String := "azureuser"

/-- managedIdentity (line 37). -/
def managedIdentity : String := "msi"

/-- Result of building the desired resource: either the resource, or the
parse failure of line 166 ("failed to parse service cidr"), the only
error path of the builder. -/
inductive BuildResult where
  | built (mc : ManagedCluster)
  | parseError
deriving DecidableEq

/-- Lines 158-179: the network profile of the desired resource.  The base
profile copies plugin, LB SKU and policy verbatim (lines 150-154) and the
pod CIDR only if non-empty (lines 158-160).  If ServiceCIDR is non-empty
and DNSServiceIP is nil, ServiceCidr is set and a DNS IP is derived from
the parsed address by overwriting its last octet with 10 (lines 163-175);
if DNSServiceIP is given, only DNSServiceIP is set (line 177) — the code
does not set ServiceCidr on that branch. -/
def buildNetworkProfile (spec : Spec) : Option NetworkProfile :=
  let base : NetworkProfile :=
    { networkPlugin := spec.networkPlugin
      loadBalancerSku := spec.loadBalancerSKU
      networkPolicy := spec.networkPolicy
      podCidr := if spec.podCIDR = "" then none else some spec.podCIDR
      serviceCidr := none
      dnsServiceIP := none }
  if spec.serviceCIDR = "" then some base
  else
    match spec.dnsServiceIP with
    | none =>
      match parseCIDR spec.serviceCIDR with
      | none => none
      | some (ip, _n) =>
        some { base with
                serviceCidr := some spec.serviceCIDR
                dnsServiceIP := some (ipv4String { ip with d := 10 }) }
    | some given => some { base with dnsServiceIP := some given }

/-- Line 183-191: one agent pool profile per PoolSpec; type is always
VirtualMachineScaleSets, mode always System, and the subnet is copied
from the top-level spec. -/
def buildAgentPoolProfile (vnetSubnetID : String) (pool : PoolSpec) : AgentPoolProfile :=
  { name := pool.name
    vmSize := pool.sku
    osDiskSizeGB := pool.osDiskSizeGB
    count := pool.replicas
    poolType := "VirtualMachineScaleSets"
    vnetSubnetID := vnetSubnetID
    mode := "System" }

/-- Lines 126-193: the full desired resource.  Identity is always
system-assigned, the admin user fixed, the SSH key list always the single
entry carrying the spec's key, the service principal the managed-identity
sentinel.  The only failure is the service-CIDR parse error. -/
def buildManagedCluster (spec : Spec) : BuildResult :=
  match buildNetworkProfile spec with
  | none => .parseError
  | some np =>
    .built
      { identityType := "SystemAssigned"
        location := spec.location
        tags := spec.tags
        properties :=
          { nodeResourceGroup := spec.nodeResourceGroupName
            dnsPrefixVal := spec.name
            kubernetesVersion := spec.version
            linuxProfile :=
              { adminUsername := defaultUser
                sshPublicKeys := [{ keyData := spec.sshPublicKey }] }
            servicePrincipalClientID := managedIdentity
            agentPoolProfiles := spec.agentPools.map (buildAgentPoolProfile spec.vnetSubnetID)
            networkProfile := np } }

/-! ### Provider client and the Reconcile / Delete entry points -/

/-- The existing resource's properties as returned by the provider's Get.
Both SDK fields are pointers; none models nil. -/
structure ExistingProperties where
  provisioningState : Option String
  kubernetesVersion : Option String
deriving DecidableEq

/-- The existing resource as returned by the provider's Get; its
ManagedClusterProperties pointer may be nil. -/
structure ExistingManagedCluster where
  properties : Option ExistingProperties
deriving DecidableEq

/-- Response of the provider's Get: a resource, a not-found error
(azure.ResourceNotFound, line 196/200), or any other error. -/
inductive GetResult where
  | ok (mc : ExistingManagedCluster)
  | notFound
  | failed (msg : String)
deriving DecidableEq

/-- Response of the provider's Delete: success, not-found, or any other
error. -/
inductive DeleteResult where
  | ok
  | notFound
  | failed (msg : String)
deriving DecidableEq

/-- The provider client, modelled as the responses one invocation
observes: the Get response, the CreateOrUpdate error (none = success) and
the Delete response. -/
structure Provider where
  getResult : GetResult
  createOrUpdateError : Option String
  deleteResult : DeleteResult
deriving DecidableEq

/-- A call issued to the provider client, in issue order. -/
inductive ProviderCall where
  | get
  | createOrUpdate (mc : ManagedCluster)
  | delete
deriving DecidableEq

/-- Errors returned by Reconcile.  invalidCidr is the parse failure of
line 167; getFailed wraps a non-not-found Get failure (line 197); blocked
is the non-terminal-state error of lines 209-211 and carries the observed
state; createFailed and updateFailed wrap CreateOrUpdate failures (lines
204 and 232). -/
inductive ReconcileError where
  | invalidCidr
  | getFailed (msg : String)
  | blocked (ps : String)
  | createFailed (msg : String)
  | updateFailed (msg : String)
deriving DecidableEq

/-- Outcome of one Reconcile invocation (Go's error return: nil or an
error). -/
inductive Outcome where
  | success
  | failure (e : ReconcileError)
deriving DecidableEq

/-- Modelled from the spec: the provisioning-state constant
infrav1alpha4.Canceled is declared outside the given source file; the
spec lists the enumerated states as Creating, Updating, Deleting,
Succeeded, Failed, Canceled. -/
def canceledState : String := "Canceled"

/-- Modelled from the spec: the provisioning-state constant
infrav1alpha4.Failed, declared outside the given source file. -/
def failedState : String := "Failed"

/-- Modelled from the spec: the provisioning-state constant
infrav1alpha4.Succeeded, declared outside the given source file. -/
def succeededState : String := "Succeeded"

/-- Service.Reconcile (lines 117-238).  Returns the ordered list of
provider calls issued and the outcome; outcome none models the nil
dereference of line 207 (existing resource with nil properties or nil
provisioning state), a Go panic.  The desired resource is built (and the
service CIDR parsed) before any provider call; a Get failure other than
not-found is returned wrapped; on not-found the full built resource is
sent in one CreateOrUpdate; otherwise a non-terminal provisioning state
is a blocking error, and the normalized diff (lines 220-227) restricted
to KubernetesVersion decides between no-op and a single update call. -/
def reconcile (spec : Spec) (p : Provider) :
    List ProviderCall × Option Outcome :=
  match buildManagedCluster spec with
  | .parseError => ([], some (.failure .invalidCidr))
  | .built mc =>
    match p.getResult with
    | .failed msg => ([.get], some (.failure (.getFailed msg)))
    | .notFound =>
      match p.createOrUpdateError with
      | some msg => ([.get, .createOrUpdate mc], some (.failure (.createFailed msg)))
      | none => ([.get, .createOrUpdate mc], some .success)
    | .ok existing =>
      match existing.properties with
      | none => ([.get], none)
      | some props =>
        match props.provisioningState with
        | none => ([.get], none)
        | some ps =>
          if ps ≠ canceledState ∧ ps ≠ failedState ∧ ps ≠ succeededState then
            ([.get], some (.failure (.blocked ps)))
          else if props.kubernetesVersion = some spec.version then
            ([.get], some .success)
          else
            match p.createOrUpdateError with
            | some msg => ([.get, .createOrUpdate mc], some (.failure (.updateFailed msg)))
            | none => ([.get, .createOrUpdate mc], some .success)

/-- Outcome of one Delete invocation; the failure wraps the provider
error with the cluster name and resource group (line 257). -/
inductive DeleteOutcome where
  | success
  | failure (msg : String) (name : String) (group : String)
deriving DecidableEq

/-- Service.Delete (lines 241-262): one unconditional provider Delete;
not-found is success, any other failure is wrapped with context. -/
def deleteManagedCluster (spec : Spec) (p : Provider) :
    List ProviderCall × DeleteOutcome :=
  match p.deleteResult with
  | .ok => ([.delete], .success)
  | .notFound => ([.delete], .success)
  | .failed msg => ([.delete], .failure msg spec.name spec.resourceGroupName)

/-- Number of mutating (CreateOrUpdate) calls in a call list. -/
def createOrUpdateCount : List ProviderCall → Nat
  | [] => 0
  | .createOrUpdate _ :: rest => createOrUpdateCount rest + 1
  | _ :: rest => createOrUpdateCount rest

/-! ### Statement helpers -/

/-- The DNSServiceIP field of the built resource, when building succeeds. -/
def builtDNSServiceIP (spec : Spec) : Option (Option String) :=
  match buildManagedCluster spec with
  | .built mc => some mc.properties.networkProfile.dnsServiceIP
  | .parseError => none

/-- The ServiceCidr field of the built resource, when building succeeds. -/
def builtServiceCidr (spec : Spec) : Option (Option String) :=
  match buildManagedCluster spec with
  | .built mc => some mc.properties.networkProfile.serviceCidr
  | .parseError => none

/-- The Linux profile of the built resource, when building succeeds. -/
def builtLinuxProfile (spec : Spec) : Option LinuxProfile :=
  match buildManagedCluster spec with
  | .built mc => some mc.properties.linuxProfile
  | .parseError => none

/-- Follows the spec's words (section 4.1): parse the service CIDR, take
the network's base address (the address masked by the prefix length) and
overwrite its final octet with 10.  Written only to be compared with the
code's derivation, which uses the address as written instead of the base. -/
def specNetworkBaseDNSIP (cidr : String) : Option String :=
  match parseCIDR cidr with
  | none => none
  | some (ip, n) =>
    let v : Nat := ((ip.a * 256 + ip.b) * 256 + ip.c) * 256 + ip.d
    let base : Nat := v - v % 2 ^ (32 - n)
    some (ipv4String
      { a := base / 2 ^ 24 % 256
        b := base / 2 ^ 16 % 256
        c := base / 2 ^ 8 % 256
        d := 10 })

/-! ### Concrete fixtures -/

/-- A representative well-formed spec used by witnesses. -/
def baseSpec : Spec :=
  { name := "cluster"
    resourceGroupName := "rg"
    nodeResourceGroupName := "nodes"
    vnetSubnetID := "subnet-id"
    location := "westus2"
    tags := []
    version := "1.21.2"
    loadBalancerSKU := "Standard"
    networkPlugin := "azure"
    networkPolicy := "azure"
    sshPublicKey := "ssh-rsa AAAA"
    agentPools := []
    podCIDR := ""
    serviceCIDR := ""
    dnsServiceIP := none }

/-- The resource buildManagedCluster produces from baseSpec. -/
def baseMC : ManagedCluster :=
  { identityType := "SystemAssigned"
    location := "westus2"
    tags := []
    properties :=
      { nodeResourceGroup := "nodes"
        dnsPrefixVal := "cluster"
        kubernetesVersion := "1.21.2"
        linuxProfile :=
          { adminUsername := "azureuser"
            sshPublicKeys := [{ keyData := "ssh-rsa AAAA" }] }
        servicePrincipalClientID := "msi"
        agentPoolProfiles := []
        networkProfile :=
          { networkPlugin := "azure"
            loadBalancerSku := "Standard"
            networkPolicy := "azure"
            podCidr := none
            serviceCidr := none
            dnsServiceIP := none } } }

/-- Provider whose Get reports not-found and whose mutations succeed. -/
def notFoundProvider : Provider :=
  { getResult := .notFound, createOrUpdateError := none, deleteResult := .notFound }

/-- Provider holding a resource in terminal state Succeeded at the base
spec's version. -/
def succeededProvider : Provider :=
  { getResult := .ok { properties := some { provisioningState := some "Succeeded", kubernetesVersion := some "1.21.2" } }
    createOrUpdateError := none
    deleteResult := .ok }

/-- Provider holding a resource in the in-progress state Creating. -/
def creatingProvider : Provider :=
  { getResult := .ok { properties := some { provisioningState := some "Creating", kubernetesVersion := some "1.21.2" } }
    createOrUpdateError := none
    deleteResult := .ok }

/-- Provider holding a resource whose properties pointer is nil. -/
def nilStateProvider : Provider :=
  { getResult := .ok { properties := none }
    createOrUpdateError := none
    deleteResult := .ok }

/-- Provider whose Get fails with an error other than not-found. -/
def failedGetProvider : Provider :=
  { getResult := .failed "boom", createOrUpdateError := none, deleteResult := .ok }

/-! ### Claims -/

/-- C1 (counterexample): the code derives the DNS service IP from the
address written in the service CIDR, not from the network base address.
For serviceCIDR 10.0.5.7/16 the built resource carries 10.0.5.10 while
the network base address with final octet 10 is 10.0.0.10. -/
theorem C1_counterexample :
    builtDNSServiceIP { baseSpec with serviceCIDR := "10.0.5.7/16" } = some (some "10.0.5.10")
    ∧ specNetworkBaseDNSIP "10.0.5.7/16" = some "10.0.0.10"
    ∧ ("10.0.5.10" : String) ≠ "10.0.0.10" := by decide

/-- C1 (amended): for every ClusterSpec whose dnsServiceIP is absent and
whose serviceCIDR parses, the built resource's dnsServiceIP is the
address as written in the serviceCIDR with its final IPv4 octet
overwritten by 10; for serviceCIDR 10.0.0.0/16 (whose written address is
the network base) this yields 10.0.0.10. -/
theorem C1_amended (spec : Spec) (ip : IPv4) (n : Nat)
    (hdns : spec.dnsServiceIP = none)
    (hparse : parseCIDR spec.serviceCIDR = some (ip, n)) :
    builtDNSServiceIP spec = some (some (ipv4String { ip with d := 10 })) := by
  have hne : spec.serviceCIDR ≠ "" := by
    intro h
    rw [h] at hparse
    have hnone : parseCIDR "" = none := by decide
    rw [hnone] at hparse
    exact Option.noConfusion hparse
  simp [builtDNSServiceIP, buildManagedCluster, buildNetworkProfile, hne, hdns, hparse]

/-- C1 (witness): the amended claim at serviceCIDR 10.0.0.0/16. -/
theorem C1_amended_witness :
    builtDNSServiceIP { baseSpec with serviceCIDR := "10.0.0.0/16" } = some (some "10.0.0.10") := by
  have h := C1_amended { baseSpec with serviceCIDR := "10.0.0.0/16" } ⟨10, 0, 0, 0⟩ 16 (by decide) (by decide)
  rw [h]
  decide

/-- C2 (code evaluation at the failing input): with serviceCIDR
10.0.0.0/16 and an explicit dnsServiceIP 10.0.0.10, the built resource
carries the given dnsServiceIP but leaves serviceCidr unset, contrary to
the claim that both are set verbatim. -/
theorem C2_code_eval :
    builtServiceCidr { baseSpec with serviceCIDR := "10.0.0.0/16", dnsServiceIP := some "10.0.0.10" } = some none
    ∧ builtDNSServiceIP { baseSpec with serviceCIDR := "10.0.0.0/16", dnsServiceIP := some "10.0.0.10" }
        = some (some "10.0.0.10")
    ∧ some (none : Option String) ≠ some (some "10.0.0.0/16") := by decide

/-- C3 (counterexample): a malformed serviceCIDR together with an
explicitly given dnsServiceIP is never parsed: Reconcile proceeds,
issues provider calls and returns success, instead of failing with the
parse error. -/
theorem C3_counterexample :
    (reconcile { baseSpec with serviceCIDR := "not-a-cidr", dnsServiceIP := some "1.2.3.4" } notFoundProvider).2
        = some .success
    ∧ (reconcile { baseSpec with serviceCIDR := "not-a-cidr", dnsServiceIP := some "1.2.3.4" } notFoundProvider).1
        ≠ [] := by decide

/-- C3 (amended): for every ClusterSpec whose serviceCIDR is non-empty
and does not parse and whose dnsServiceIP is absent, Reconcile returns
the parse (InvalidSpec) error and issues no provider call at all. -/
theorem C3_amended (spec : Spec) (p : Provider)
    (hne : spec.serviceCIDR ≠ "")
    (hdns : spec.dnsServiceIP = none)
    (hparse : parseCIDR spec.serviceCIDR = none) :
    reconcile spec p = ([], some (.failure .invalidCidr)) := by
  simp [reconcile, buildManagedCluster, buildNetworkProfile, hne, hdns, hparse]

/-- C3 (witness): the amended claim at serviceCIDR not-a-cidr. -/
theorem C3_amended_witness :
    reconcile { baseSpec with serviceCIDR := "not-a-cidr" } notFoundProvider
      = ([], some (.failure .invalidCidr)) :=
  C3_amended { baseSpec with serviceCIDR := "not-a-cidr" } notFoundProvider
    (by decide) (by decide) (by decide)

/-- C4: when Get succeeds and the existing resource's provisioning state
is none of Canceled, Failed, Succeeded, Reconcile returns the blocking
error carrying the observed state and issues no mutating call. -/
theorem C4_blocked (spec : Spec) (p : Provider) (mc : ManagedCluster)
    (ex : ExistingManagedCluster) (props : ExistingProperties) (ps : String)
    (hb : buildManagedCluster spec = .built mc)
    (hget : p.getResult = .ok ex)
    (hprops : ex.properties = some props)
    (hps : props.provisioningState = some ps)
    (h1 : ps ≠ canceledState) (h2 : ps ≠ failedState) (h3 : ps ≠ succeededState) :
    reconcile spec p = ([.get], some (.failure (.blocked ps))) := by
  simp [reconcile, hb, hget, hprops, hps, h1, h2, h3]

/-- C4 (witness): an existing resource in state Creating blocks. -/
theorem C4_blocked_witness :
    reconcile baseSpec creatingProvider = ([.get], some (.failure (.blocked "Creating"))) :=
  C4_blocked baseSpec creatingProvider baseMC
    { properties := some { provisioningState := some "Creating", kubernetesVersion := some "1.21.2" } }
    { provisioningState := some "Creating", kubernetesVersion := some "1.21.2" } "Creating"
    (by decide) (by decide) (by decide) (by decide) (by decide) (by decide) (by decide)

/-- C5: when Get reports not-found, Reconcile issues exactly one
CreateOrUpdate carrying the full built resource and succeeds if that
call succeeds; when Get fails with any other error, that error is
returned wrapped and no CreateOrUpdate is issued. -/
theorem C5_create_or_get_error (spec : Spec) (p : Provider) (mc : ManagedCluster)
    (hb : buildManagedCluster spec = .built mc) :
    (p.getResult = .notFound →
        (reconcile spec p).1 = [.get, .createOrUpdate mc]
        ∧ (p.createOrUpdateError = none →
            reconcile spec p = ([.get, .createOrUpdate mc], some .success)))
    ∧ (∀ msg, p.getResult = .failed msg →
        reconcile spec p = ([.get], some (.failure (.getFailed msg)))) := by
  refine ⟨fun hget => ⟨?_, fun hcu => ?_⟩, fun msg hget => ?_⟩
  · rcases hcu : p.createOrUpdateError with _ | msg <;> simp [reconcile, hb, hget, hcu]
  · simp [reconcile, hb, hget, hcu]
  · simp [reconcile, hb, hget]

/-- C5 (witness): a not-found Get at the base spec yields one
CreateOrUpdate of the built resource and success. -/
theorem C5_create_witness :
    (reconcile baseSpec notFoundProvider).1 = [.get, .createOrUpdate baseMC]
    ∧ reconcile baseSpec notFoundProvider = ([.get, .createOrUpdate baseMC], some .success) := by
  have h := (C5_create_or_get_error baseSpec notFoundProvider baseMC (by decide)).1 (by decide)
  exact ⟨h.1, h.2 (by decide)⟩

/-- C8: Delete issues the single provider Delete; a not-found response is
success, a success is success, and any other failure is returned wrapped
with the cluster name and resource group. -/
theorem C8_delete_idempotent (spec : Spec) (p : Provider) :
    (p.deleteResult = .notFound → deleteManagedCluster spec p = ([.delete], .success))
    ∧ (p.deleteResult = .ok → deleteManagedCluster spec p = ([.delete], .success))
    ∧ (∀ msg, p.deleteResult = .failed msg →
        deleteManagedCluster spec p = ([.delete], .failure msg spec.name spec.resourceGroupName)) := by
  refine ⟨fun h => ?_, fun h => ?_, fun msg h => ?_⟩ <;> simp [deleteManagedCluster, h]

/-- C8 (witness): deleting an already-absent resource succeeds. -/
theorem C8_delete_witness :
    deleteManagedCluster baseSpec notFoundProvider = ([.delete], .success) :=
  (C8_delete_idempotent baseSpec notFoundProvider).1 (by decide)

/-- C9 (counterexample): with an empty sshPublicKey the built resource's
SSH key list still contains one (empty) entry, not zero entries. -/
theorem C9_counterexample :
    (builtLinuxProfile { baseSpec with sshPublicKey := "" }).map LinuxProfile.sshPublicKeys
        = some [{ keyData := "" }]
    ∧ (builtLinuxProfile { baseSpec with sshPublicKey := "" }).map LinuxProfile.sshPublicKeys
        ≠ some [] := by decide

/-- C9 (amended): the built resource's Linux profile always uses the
fixed default administrator username, and its SSH public key list always
contains exactly one entry carrying the spec's sshPublicKey, also when
that key is empty. -/
theorem C9_amended (spec : Spec) (mc : ManagedCluster)
    (hb : buildManagedCluster spec = .built mc) :
    mc.properties.linuxProfile
      = { adminUsername := defaultUser, sshPublicKeys := [{ keyData := spec.sshPublicKey }] } := by
  rcases hnp : buildNetworkProfile spec with _ | np
  · simp [buildManagedCluster, hnp] at hb
  · have h2 : buildManagedCluster spec = .built
        { identityType := "SystemAssigned"
          location := spec.location
          tags := spec.tags
          properties :=
            { nodeResourceGroup := spec.nodeResourceGroupName
              dnsPrefixVal := spec.name
              kubernetesVersion := spec.version
              linuxProfile :=
                { adminUsername := defaultUser
                  sshPublicKeys := [{ keyData := spec.sshPublicKey }] }
              servicePrincipalClientID := managedIdentity
              agentPoolProfiles := spec.agentPools.map (buildAgentPoolProfile spec.vnetSubnetID)
              networkProfile := np } } := by
      simp [buildManagedCluster, hnp]
    rw [h2] at hb
    injection hb with h3
    rw [← h3]

/-- C9 (witness): the amended claim at the base spec. -/
theorem C9_amended_witness :
    baseMC.properties.linuxProfile
      = { adminUsername := defaultUser, sshPublicKeys := [{ keyData := "ssh-rsa AAAA" }] } :=
  C9_amended baseSpec baseMC (by decide)

/-- C10: when Get succeeds, Reconcile reads the existing resource's
properties and provisioning state without a guard: a resource with a nil
properties block or nil provisioning state makes the invocation undefined
(outcome none, a nil dereference), and a present provisioning state makes
it defined. -/
theorem C10_unguarded_provisioning_state (spec : Spec) (p : Provider) (mc : ManagedCluster)
    (ex : ExistingManagedCluster)
    (hb : buildManagedCluster spec = .built mc)
    (hget : p.getResult = .ok ex) :
    ((ex.properties = none ∨ ∃ props, ex.properties = some props ∧ props.provisioningState = none) →
        (reconcile spec p).2 = none)
    ∧ (∀ props ps, ex.properties = some props → props.provisioningState = some ps →
        ∃ r, (reconcile spec p).2 = some r) := by
  constructor
  · rintro (hp | ⟨props, hp, hps⟩)
    · simp [reconcile, hb, hget, hp]
    · simp [reconcile, hb, hget, hp, hps]
  · intro props ps hp hps
    by_cases hc : ps ≠ canceledState ∧ ps ≠ failedState ∧ ps ≠ succeededState
    · exact ⟨.failure (.blocked ps),
        by simp [reconcile, hb, hget, hp, hps, hc.1, hc.2.1, hc.2.2]⟩
    · by_cases hv : props.kubernetesVersion = some spec.version
      · exact ⟨.success, by simp [reconcile, hb, hget, hp, hps, if_neg hc, hv]⟩
      · rcases hcu : p.createOrUpdateError with _ | msg
        · exact ⟨.success, by simp [reconcile, hb, hget, hp, hps, if_neg hc, hv, hcu]⟩
        · exact ⟨.failure (.updateFailed msg),
            by simp [reconcile, hb, hget, hp, hps, if_neg hc, hv, hcu]⟩

/-- C10 (witness): a fetched resource with a nil properties block makes
the invocation undefined. -/
theorem C10_witness :
    (reconcile baseSpec nilStateProvider).2 = none :=
  (C10_unguarded_provisioning_state baseSpec nilStateProvider baseMC
    { properties := none } (by decide) (by decide)).1 (Or.inl (by decide))

/-- C6: an existing resource in a terminal state (Canceled, Failed or
Succeeded) whose kubernetes version already equals the desired one makes
Reconcile a NoOp: only the Get is issued and the invocation succeeds.
Moreover a successful invocation that issued no mutating call is exactly
that NoOp, so re-invoking with the provider unchanged is again a NoOp. -/
theorem C6_noop_idempotent (spec : Spec) (p : Provider) (mc : ManagedCluster)
    (hb : buildManagedCluster spec = .built mc) :
    (∀ ex props ps, p.getResult = .ok ex → ex.properties = some props →
        props.provisioningState = some ps →
        (ps = canceledState ∨ ps = failedState ∨ ps = succeededState) →
        props.kubernetesVersion = some spec.version →
        reconcile spec p = ([.get], some .success))
    ∧ (∀ calls, reconcile spec p = (calls, some .success) →
        (∀ m, ProviderCall.createOrUpdate m ∉ calls) →
        reconcile spec p = ([.get], some .success)) := by
  constructor
  · intro ex props ps hget hp hps hterm hv
    rcases hterm with h | h | h <;> subst h <;>
      simp [reconcile, hb, hget, hp, hps, hv, canceledState, failedState, succeededState]
  · intro calls h hno
    rcases hg : p.getResult with ex | _ | msg
    · rcases hp : ex.properties with _ | props
      · simp [reconcile, hb, hg, hp] at h
      · rcases hps : props.provisioningState with _ | ps
        · simp [reconcile, hb, hg, hp, hps] at h
        · by_cases hc : ps ≠ canceledState ∧ ps ≠ failedState ∧ ps ≠ succeededState
          · simp [reconcile, hb, hg, hp, hps, hc.1, hc.2.1, hc.2.2] at h
          · by_cases hv : props.kubernetesVersion = some spec.version
            · simp [reconcile, hb, hg, hp, hps, if_neg hc, hv]
            · rcases hcu : p.createOrUpdateError with _ | msg
              · have hcalls : reconcile spec p = ([.get, .createOrUpdate mc], some .success) := by
                  simp [reconcile, hb, hg, hp, hps, if_neg hc, hv, hcu]
                rw [hcalls] at h
                have h1 : calls = [.get, .createOrUpdate mc] := (congrArg Prod.fst h).symm
                exact absurd (by simp [h1]) (hno mc)
              · have hcalls : reconcile spec p
                    = ([.get, .createOrUpdate mc], some (.failure (.updateFailed msg))) := by
                  simp [reconcile, hb, hg, hp, hps, if_neg hc, hv, hcu]
                rw [hcalls] at h
                simp at h
    · rcases hcu : p.createOrUpdateError with _ | msg
      · have hcalls : reconcile spec p = ([.get, .createOrUpdate mc], some .success) := by
          simp [reconcile, hb, hg, hcu]
        rw [hcalls] at h
        have h1 : calls = [.get, .createOrUpdate mc] := (congrArg Prod.fst h).symm
        exact absurd (by simp [h1]) (hno mc)
      · have hcalls : reconcile spec p
            = ([.get, .createOrUpdate mc], some (.failure (.createFailed msg))) := by
          simp [reconcile, hb, hg, hcu]
        rw [hcalls] at h
        simp at h
    · simp [reconcile, hb, hg] at h

/-- C6 (witness): a Succeeded existing resource at the desired version is
a NoOp, and that NoOp reproduces itself on re-invocation. -/
theorem C6_noop_witness :
    reconcile baseSpec succeededProvider = ([.get], some .success) := by
  have h := C6_noop_idempotent baseSpec succeededProvider baseMC (by decide)
  have h1 := h.1
    { properties := some { provisioningState := some "Succeeded", kubernetesVersion := some "1.21.2" } }
    { provisioningState := some "Succeeded", kubernetesVersion := some "1.21.2" } "Succeeded"
    (by decide) (by decide) (by decide) (Or.inr (Or.inr (by decide))) (by decide)
  exact h.2 [.get] h1 (by intro m hm; simp at hm)

/-- C7: every Reconcile invocation issues at most one mutating provider
call, on every control-flow path including all error paths. -/
theorem C7_at_most_one_mutating_call (spec : Spec) (p : Provider) :
    createOrUpdateCount (reconcile spec p).1 ≤ 1 := by
  rcases hb : buildManagedCluster spec with mc | _
  · rcases hg : p.getResult with ex | _ | msg
    · rcases hp : ex.properties with _ | props
      · simp [reconcile, hb, hg, hp, createOrUpdateCount]
      · rcases hps : props.provisioningState with _ | ps
        · simp [reconcile, hb, hg, hp, hps, createOrUpdateCount]
        · by_cases hc : ps ≠ canceledState ∧ ps ≠ failedState ∧ ps ≠ succeededState
          · simp [reconcile, hb, hg, hp, hps, hc.1, hc.2.1, hc.2.2, createOrUpdateCount]
          · by_cases hv : props.kubernetesVersion = some spec.version
            · simp [reconcile, hb, hg, hp, hps, if_neg hc, hv, createOrUpdateCount]
            · rcases hcu : p.createOrUpdateError with _ | msg <;>
                simp [reconcile, hb, hg, hp, hps, if_neg hc, hv, hcu, createOrUpdateCount]
    · rcases hcu : p.createOrUpdateError with _ | msg <;>
        simp [reconcile, hb, hg, hcu, createOrUpdateCount]
    · simp [reconcile, hb, hg, createOrUpdateCount]
  · simp [reconcile, hb, createOrUpdateCount]

end ManagedClusters
